import Mathlib

/-!
Verification development for the jouletrace measurement core.

The Python source is shallowly embedded: floats are modelled as exact
rationals (with real numbers only where Python takes a square root),
wall-clock and monotonic instants are explicit parameters, the sysfs
tree and the Redis store are explicit finite maps, and fallible code
returns `Except`.
-/

namespace JouleTrace

/-! ## Statistics helpers

Embeddings of the pieces of Python's `statistics` module the aggregator
uses: `statistics.mean`, `statistics.stdev` (sample formula, n-1
denominator) and `statistics.median`.  `stdev` takes a square root, so it
lands in `ℝ`; everything else stays in `ℚ`. -/

def mean (xs : List ℚ) : ℚ := xs.sum / xs.length

/-- Sample variance with the `n - 1` denominator (the quantity under the
square root in `statistics.stdev`).  Only meaningful for `2 ≤ xs.length`;
every caller in the source guards the length first. -/
def sampleVariance (xs : List ℚ) : ℚ :=
  (xs.map (fun x => (x - mean xs) ^ 2)).sum / ((xs.length : ℚ) - 1)

noncomputable def sampleStdev (xs : List ℚ) : ℝ :=
  Real.sqrt (sampleVariance xs)

/-- Embedding of `statistics.median`: middle element of the sorted list, or the average
of the two middle elements for even length. -/
def median (xs : List ℚ) : ℚ :=
  let s := xs.mergeSort (fun a b => decide (a ≤ b))
  if xs.length % 2 = 1 then s.getD (xs.length / 2) 0
  else (s.getD (xs.length / 2 - 1) 0 + s.getD (xs.length / 2) 0) / 2

/-! ## Calibration profile (`core/socket_executor.py`, class `CalibrationProfile`)

State after `load()`.  `idle_power_watts` is `Optional[float]`; the source
checks it with Python truthiness (`not self.idle_power_watts`), which
treats `None` and `0.0` alike.  The `timestamp` string only matters
through `not self.timestamp` (None or empty) and through
`datetime.fromisoformat`, so it is modelled by the three observable
outcomes; parsed instants are wall-clock microseconds. -/

inductive TimestampField
  | missing
  | malformed
  | parsed (microseconds : ℤ)
deriving DecidableEq

structure CalibrationProfileState where
  idle_power_watts : Option ℚ
  timestamp : TimestampField
  cv_percent : ℚ
  valid_until_days : ℤ
deriving DecidableEq

/-- Python truthiness of an `Optional[float]` field: `None` and `0.0` are
falsy, every other value is truthy. -/
def floatTruthy : Option ℚ → Bool
  | none => false
  | some v => v != 0

def microsecondsPerDay : ℤ := 86400000000

/-- Embedding of `CalibrationProfile.is_valid` (source lines 64-87).  `now` is the
wall-clock instant `datetime.now()` in microseconds; `age.days` in the
expiry message is `timedelta.days`, i.e. floor division of the age by one
day. -/
def CalibrationProfileState.is_valid (p : CalibrationProfileState) (now : ℤ) :
    Bool × String :=
  if !floatTruthy p.idle_power_watts then (false, "Calibration not loaded")
  else
    match p.timestamp with
    | .missing => (false, "Calibration timestamp missing")
    | .malformed => (false, "Invalid timestamp format")
    | .parsed t =>
      let age := now - t
      if age > p.valid_until_days * microsecondsPerDay then
        (false, "Calibration expired (" ++ toString (age.fdiv microsecondsPerDay) ++
          " days old, max " ++ toString p.valid_until_days ++ ")")
      else (true, "Valid")

/-- Embedding of `CalibrationProfile.get_baseline_energy` (source lines 89-93): raises
`RuntimeError` when the profile is not loaded (same truthiness test),
otherwise `idle_power_watts * duration_seconds`. -/
def CalibrationProfileState.get_baseline_energy (p : CalibrationProfileState)
    (duration_seconds : ℚ) : Except String ℚ :=
  if !floatTruthy p.idle_power_watts then .error "Calibration not loaded"
  else .ok (p.idle_power_watts.getD 0 * duration_seconds)

/-! ## PCM socket meter (`energy/pcm_socket_meter.py`)

A `PCMReading` carries the cumulative package and DRAM counters of one
socket in joules (the source also stamps `time.time()`; the stamp feeds
only the 100 ms read cache, which the executor clears before every read,
so readings here are always cache misses). -/

structure PCMReading where
  socket_id : ℕ
  package_energy_joules : ℚ
  dram_energy_joules : ℚ
deriving DecidableEq

def raplBasePath : String := "/sys/class/powercap/intel-rapl"

def raplSocketPath (socket_id : ℕ) : String :=
  raplBasePath ++ "/intel-rapl:" ++ toString socket_id

/-- Package counter file read by `_read_socket_energy`. -/
def packageEnergyPath (socket_id : ℕ) : String :=
  raplSocketPath socket_id ++ "/energy_uj"

/-- DRAM counter file read by `_read_socket_energy` (source line 301):
`rapl_socket / "intel-rapl:0:0" / "energy_uj"` — the child domain name is
the fixed string `intel-rapl:0:0` for every socket. -/
def dramEnergyPath (socket_id : ℕ) : String :=
  raplSocketPath socket_id ++ "/intel-rapl:0:0/energy_uj"

/-- Modelled from the spec (§6, External interfaces): the DRAM counter
path the specification documents,
`/sys/class/powercap/intel-rapl/intel-rapl:<socket>/intel-rapl:<socket>:0/energy_uj`,
whose child domain index matches the socket index.  Stated only to be
compared with `dramEnergyPath`, which is the path the source reads. -/
def specDramEnergyPath (socket_id : ℕ) : String :=
  raplSocketPath socket_id ++ "/intel-rapl:" ++ toString socket_id ++ ":0/energy_uj"

/-- Embedding of `PCMSocketMeter._read_socket_energy` (source lines 266-322) on a cache
miss.  The sysfs tree is a pair of maps: `dirExists` for directory
existence tests, `fs` for readable counter files holding a decimal
microjoule integer. -/
def readSocketEnergy (dirExists : String → Bool) (fs : String → Option ℕ)
    (socket_id : ℕ) : Except String PCMReading :=
  if !dirExists (raplSocketPath socket_id) then
    .error ("RAPL interface not found for socket " ++ toString socket_id)
  else
    match fs (packageEnergyPath socket_id) with
    | none => .error ("Energy counter not found: " ++ packageEnergyPath socket_id)
    | some energy_uj =>
      let package_joules : ℚ := (energy_uj : ℚ) / 1000000
      let dram_joules : ℚ :=
        match fs (dramEnergyPath socket_id) with
        | some dram_uj => (dram_uj : ℚ) / 1000000
        | none => 0
      .ok { socket_id := socket_id, package_energy_joules := package_joules,
            dram_energy_joules := dram_joules }

/-- The attribute names a `PCMSocketMeter` instance resolves: instance
attributes set in `__init__`, methods and properties of the class body,
and the non-abstract methods inherited from `EnergyMeter`
(`energy/interfaces.py`). -/
def pcmSocketMeterAttributes : List String :=
  ["use_sudo", "pcm_timeout", "pcm_path", "topology", "_setup_complete",
   "_last_reading_cache", "_cache_timestamp", "_cache_max_age",
   "meter_type", "capabilities", "_find_pcm_binary", "_detect_socket_topology",
   "_check_pcm_permissions", "is_available", "setup", "cleanup",
   "_read_socket_energy", "get_socket_energy", "get_cpu_socket",
   "_create_measurement_script", "_measure_single_trial", "measure_execution",
   "get_environment_info", "validate_setup", "get_meter_info"]

/-- Python attribute lookup on a `PCMSocketMeter` instance: `none` means
the access raises `AttributeError` (the class defines no `__getattr__`). -/
def pyGetattr (attrs : List String) (name : String) : Option Unit :=
  if name ∈ attrs then some () else none

/-! ## Socket executor (`core/socket_executor.py`, class `SocketExecutor`) -/

/-- The `ExecutionResult` dataclass (source lines 21-36).  The wall-clock
`timestamp` string (`datetime.now().isoformat()`) is ambient and carries
no measured data, so it is not modelled. -/
structure ExecutionResult where
  net_energy_joules : ℚ
  raw_energy_joules : ℚ
  baseline_energy_joules : ℚ
  execution_time_seconds : ℚ
  trial_number : ℕ
  cpu_core : ℕ
  success : Bool
  error_message : Option String
  package_net_energy_joules : ℚ
  dram_energy_joules : ℚ
deriving DecidableEq

/-- The failed `ExecutionResult` every error branch of
`execute_single_trial` builds: zero energy fields, `success=False`, and
the branch's message. -/
def failedResult (trial_number : ℕ) (cpu_core : ℕ) (msg : String) : ExecutionResult :=
  { net_energy_joules := 0, raw_energy_joules := 0, baseline_energy_joules := 0,
    execution_time_seconds := 0, trial_number := trial_number, cpu_core := cpu_core,
    success := false, error_message := some msg,
    package_net_energy_joules := 0, dram_energy_joules := 0 }

structure SocketExecutorState where
  socket_id : ℕ
  cpu_core : ℕ
  timeout_seconds : ℕ
  calibration : CalibrationProfileState
deriving DecidableEq

/-- One wrapped counter range in joules: `2**32 / 1_000_000.0`
(source lines 361 and 363). -/
def rolloverJoules : ℚ := 2 ^ 32 / 1000000

/-- The environment one trial observes: the idle check outcome, the two
meter readings the source *would* obtain, the outer monotonic clock at
the two `time.perf_counter()` calls, and the subprocess outcome. -/
structure TrialEnv where
  idle_ok : Bool
  idle_message : String
  reading_before : PCMReading
  reading_after : PCMReading
  t0 : ℚ
  t1 : ℚ
  subprocess_timed_out : Bool
  subprocess_returncode : ℤ
  subprocess_stderr : String
deriving DecidableEq

/-- Body of the `try:` block of `execute_single_trial` from the first
meter read onwards (source lines 305-409), assuming the
`get_socket_reading` attribute resolved — in the source this code is
unreachable (see `execute_single_trial` below), but its arithmetic
(lines 352-383) is embedded faithfully. -/
def trialBody (ex : SocketExecutorState) (env : TrialEnv) (trial_number : ℕ) :
    ExecutionResult :=
  if env.subprocess_timed_out then
    failedResult trial_number ex.cpu_core
      ("Execution timeout (" ++ toString ex.timeout_seconds ++ "s)")
  else if env.subprocess_returncode != 0 then
    failedResult trial_number ex.cpu_core
      ("Execution failed: " ++
        (if env.subprocess_stderr = "" then "Unknown error" else env.subprocess_stderr))
  else
    let wall_time := env.t1 - env.t0
    let execution_time := wall_time
    let pkg_raw0 :=
      env.reading_after.package_energy_joules - env.reading_before.package_energy_joules
    let dram_raw0 :=
      env.reading_after.dram_energy_joules - env.reading_before.dram_energy_joules
    let pkg_raw := if pkg_raw0 < 0 then pkg_raw0 + rolloverJoules else pkg_raw0
    let dram_raw := if dram_raw0 < 0 then dram_raw0 + rolloverJoules else dram_raw0
    match ex.calibration.get_baseline_energy execution_time with
    | .error e => failedResult trial_number ex.cpu_core ("Unexpected error: " ++ e)
    | .ok baseline_energy =>
      let package_net := max 0 (pkg_raw - baseline_energy)
      let total_net := package_net + max 0 dram_raw
      { net_energy_joules := total_net,
        raw_energy_joules := pkg_raw,
        baseline_energy_joules := baseline_energy,
        execution_time_seconds := execution_time,
        trial_number := trial_number,
        cpu_core := ex.cpu_core,
        success := true,
        error_message := none,
        package_net_energy_joules := package_net,
        dram_energy_joules := dram_raw }

/-- Embedding of `SocketExecutor.execute_single_trial` (source lines 248-416) on an
initialized executor.  After the optional idle check it resolves
`self.meter.get_socket_reading` — an attribute `PCMSocketMeter` does not
define (it defines `get_socket_energy`), so the lookup raises
`AttributeError`, which the catch-all `except Exception` turns into a
failed result with message `"Unexpected error: ..."`. -/
def execute_single_trial (ex : SocketExecutorState) (env : TrialEnv)
    (trial_number : ℕ) (verify_idle : Bool) : ExecutionResult :=
  if verify_idle && !env.idle_ok then
    failedResult trial_number ex.cpu_core ("Socket not idle: " ++ env.idle_message)
  else
    match pyGetattr pcmSocketMeterAttributes "get_socket_reading" with
    | none =>
      failedResult trial_number ex.cpu_core
        "Unexpected error: 'PCMSocketMeter' object has no attribute 'get_socket_reading'"
    | some _ => trialBody ex env trial_number

/-- Raw package delta `reading_after - reading_before` of a trial
(source line 356), before rollover correction. -/
def pkgDeltaOf (env : TrialEnv) : ℚ :=
  env.reading_after.package_energy_joules - env.reading_before.package_energy_joules

/-- Raw DRAM delta of a trial (source line 357), before rollover
correction. -/
def dramDeltaOf (env : TrialEnv) : ℚ :=
  env.reading_after.dram_energy_joules - env.reading_before.dram_energy_joules

/-- Package delta after the rollover fix-up of source lines 360-361. -/
def pkgRawOf (env : TrialEnv) : ℚ :=
  if pkgDeltaOf env < 0 then pkgDeltaOf env + rolloverJoules else pkgDeltaOf env

/-- DRAM delta after the rollover fix-up of source lines 362-363. -/
def dramRawOf (env : TrialEnv) : ℚ :=
  if dramDeltaOf env < 0 then dramDeltaOf env + rolloverJoules else dramDeltaOf env

/-! ## Statistical aggregator (`core/statistical_aggregator.py`) -/

/-- Constructor parameters of `StatisticalAggregator` with the source
defaults (lines 63-83). -/
structure AggregatorParams where
  min_trials : ℕ := 3
  max_trials : ℕ := 20
  target_cv_percent : ℚ := 5
  early_stop_enabled : Bool := true
  cooldown_seconds : ℚ := 1 / 2
  min_trial_wall_time_seconds : ℚ := 1 / 10

/-- Embedding of `StatisticalAggregator._calculate_cv` (source lines
91-101): 0 for fewer than two values or zero mean, else
`stdev / mean * 100`. -/
noncomputable def calculate_cv (values : List ℚ) : ℝ :=
  if values.length < 2 then 0
  else if mean values = 0 then 0
  else sampleStdev values / (mean values : ℝ) * 100

open Classical in
/-- Embedding of `StatisticalAggregator._assess_confidence` (source lines
103-115). -/
noncomputable def assess_confidence (p : AggregatorParams) (cv_percent : ℝ)
    (n_trials : ℕ) : String :=
  if cv_percent < 5 ∧ p.min_trials ≤ n_trials then "high"
  else if cv_percent < 10 ∧ p.min_trials ≤ n_trials then "medium"
  else "low"

/-- The two early-stop reasons.  In the source they are the f-strings
`"Achieved target CV=...% < ...%"` and `"Reached max trials (...)"`; only
the branch taken is modelled, not the interpolated numbers. -/
inductive StopReason
  | achievedTarget
  | maxTrialsReached
deriving DecidableEq

open Classical in
/-- Embedding of `StatisticalAggregator._should_stop_early` (source lines
117-144).  The caller passes `len(successful_results)` — the count of
successful trials, not the loop index — as `trial_num`. -/
noncomputable def should_stop_early (p : AggregatorParams) (energies : List ℚ)
    (trial_num : ℕ) : Option StopReason :=
  if !p.early_stop_enabled then none
  else if trial_num < p.min_trials then none
  else if calculate_cv energies < (p.target_cv_percent : ℝ) then some .achievedTarget
  else if trial_num < p.max_trials then none
  else some .maxTrialsReached

/-- Loop state of `aggregate_measurements`: the successful results in
order, the failed-trial count, the number of loop iterations executed
(`trial + 1` at exit), and the early-stop flag and reason. -/
structure LoopState where
  successes : List ExecutionResult
  failed_count : ℕ
  trials_run : ℕ
  early_stopped : Bool
  stop_reason : Option StopReason

def initialLoopState : LoopState :=
  { successes := [], failed_count := 0, trials_run := 0,
    early_stopped := false, stop_reason := none }

/-- The trial loop of `aggregate_measurements` (source lines 176-214).
`run_trial i` is the `ExecutionResult` the executor returns for trial
index `i`; `fuel` counts the remaining iterations of
`for trial in range(max_trials)`.  A successful trial is appended; once
at least `min_trials` successes accumulated, `_should_stop_early` is
consulted with the net energies and the success count, and a `some`
answer breaks the loop. -/
noncomputable def aggregateLoop (p : AggregatorParams)
    (run_trial : ℕ → ExecutionResult) : ℕ → ℕ → LoopState → LoopState
  | 0, _, st => st
  | fuel + 1, trial, st =>
    let result := run_trial trial
    let st := { st with trials_run := st.trials_run + 1 }
    if result.success then
      let successes := st.successes ++ [result]
      let st := { st with successes := successes }
      if p.min_trials ≤ successes.length then
        match should_stop_early p (successes.map (·.net_energy_joules))
            successes.length with
        | some r => { st with early_stopped := true, stop_reason := some r }
        | none => aggregateLoop p run_trial fuel (trial + 1) st
      else aggregateLoop p run_trial fuel (trial + 1) st
    else
      aggregateLoop p run_trial fuel (trial + 1)
        { st with failed_count := st.failed_count + 1 }

/-- Per-list standard deviation as `aggregate_measurements` computes it
(source line 234): sample stdev when more than one value, else 0. -/
noncomputable def aggregateStddev (energies : List ℚ) : ℝ :=
  if 1 < energies.length then sampleStdev energies else 0

/-- The `AggregatedResult` dataclass (source lines 16-49), with exact
rationals for the float fields that stay rational and reals for the
stdev/CV fields. -/
structure AggregatedResult where
  median_energy_joules : ℚ
  mean_energy_joules : ℚ
  stddev_energy_joules : ℝ
  cv_percent : ℝ
  median_pkg_energy_joules : ℚ
  median_dram_energy_joules : ℚ
  median_time_seconds : ℚ
  mean_time_seconds : ℚ
  median_power_watts : ℚ
  mean_power_watts : ℚ
  successful_trials : ℕ
  failed_trials : ℕ
  total_trials : ℕ
  trial_energies : List ℚ
  trial_times : List ℚ
  confidence_level : String
  early_stop : Bool
  early_stop_reason : Option StopReason

/-- Embedding of `StatisticalAggregator.aggregate_measurements` (source
lines 146-289): run the trial loop, raise `RuntimeError("All trials
failed")` when no trial succeeded, otherwise compute the statistics of
the successful trials. -/
noncomputable def aggregate_measurements (p : AggregatorParams)
    (run_trial : ℕ → ExecutionResult) : Except String AggregatedResult :=
  let final := aggregateLoop p run_trial p.max_trials 0 initialLoopState
  if final.successes.length = 0 then .error "All trials failed"
  else
    let energies := final.successes.map (·.net_energy_joules)
    let pkg_energies := final.successes.map (·.package_net_energy_joules)
    let dram_energies := final.successes.map (·.dram_energy_joules)
    let times := final.successes.map (·.execution_time_seconds)
    let median_energy := median energies
    let mean_energy := mean energies
    let median_time := median times
    let mean_time := mean times
    .ok {
      median_energy_joules := median_energy,
      mean_energy_joules := mean_energy,
      stddev_energy_joules := aggregateStddev energies,
      cv_percent := calculate_cv energies,
      median_pkg_energy_joules := median pkg_energies,
      median_dram_energy_joules := median dram_energies,
      median_time_seconds := median_time,
      mean_time_seconds := mean_time,
      median_power_watts := if 0 < median_time then median_energy / median_time else 0,
      mean_power_watts := if 0 < mean_time then mean_energy / mean_time else 0,
      successful_trials := final.successes.length,
      failed_trials := final.failed_count,
      total_trials := final.trials_run,
      trial_energies := energies,
      trial_times := times,
      confidence_level := assess_confidence p (calculate_cv energies) final.successes.length,
      early_stop := final.early_stopped,
      early_stop_reason := final.stop_reason }

/-! ## Socket 0 serialization lock (`api/socket_measurement_task.py`,
class `Socket0Lock`)

The Redis store is restricted to the single lock key
`"jouletrace:socket0:lock"`: `none` means the key is absent, `some (v, ttl)`
means the key holds value `v` with time-to-live `ttl` seconds. -/

structure Socket0LockConfig where
  lock_name : String := "jouletrace:socket0:lock"
  lock_timeout : ℕ := 300

/-- Redis `SET key value NX EX ttl`: set only if the key is absent,
attaching the TTL; returns the new store and whether the set happened. -/
def redisSetNxEx (st : Option (String × ℕ)) (value : String) (ttl : ℕ) :
    Option (String × ℕ) × Bool :=
  match st with
  | some v => (some v, false)
  | none => (some (value, ttl), true)

/-- Embedding of the non-blocking branch of `Socket0Lock.acquire` (source
lines 79-87): one conditional set of `"locked"` with TTL
`self.lock_timeout`.  (The blocking branch repeats the same conditional
set every 0.5 s until it succeeds or `timeout` elapses.) -/
def Socket0Lock.acquire_nonblocking (cfg : Socket0LockConfig)
    (st : Option (String × ℕ)) : Option (String × ℕ) × Bool :=
  redisSetNxEx st "locked" cfg.lock_timeout

/-- Embedding of `Socket0Lock.release` (source lines 89-95): delete the
key. -/
def Socket0Lock.release (_cfg : Socket0LockConfig) (_st : Option (String × ℕ)) :
    Option (String × ℕ) :=
  none

/-! ## Measurement orchestrator (`api/socket_measurement_task.py`,
function `socket_measurement_task`) -/

/-- The record `_validate_solution` builds from the external validator's
answer (source lines 396-402). -/
structure ValidationOutcome where
  is_correct : Bool
  passed_tests : ℕ
  total_tests : ℕ
deriving DecidableEq

/-- Observable effects of one task run, in program order.  `run_trial n`
is the executor invocation for trial `n` — the site of every (attempted)
RAPL counter read of the request. -/
inductive TaskEffect
  | update_state (stage : String)
  | validate_solution
  | lock_acquire
  | executor_setup
  | run_trial (n : ℕ)
  | executor_cleanup
  | lock_release
deriving DecidableEq

/-- The response record, reduced to the fields the claims observe:
`status` and whether an `energy_metrics` block is present (carrying the
median net energy when it is). -/
structure TaskResponse where
  status : String
  energy_metrics : Option ℚ
deriving DecidableEq

/-- Embedding of the `socket_measurement_task` control flow (source lines
188-329) after request parsing, on a validated request.  When the
validator reports `is_correct = False` the task returns the
validation-only response at once (lines 235-242): no lock acquisition,
no executor setup, no trial — hence no RAPL read — follows.  Otherwise it
acquires the Socket 0 lock, sets up the executor, runs the aggregator
(whose `RuntimeError` propagates to the catch-all handler, which releases
the lock again and answers `status="failed"`), and builds the completed
response. -/
noncomputable def socket_measurement_task (v : ValidationOutcome)
    (p : AggregatorParams) (run_trial : ℕ → ExecutionResult) :
    TaskResponse × List TaskEffect :=
  let prologue : List TaskEffect :=
    [.update_state "initializing", .update_state "validation", .validate_solution]
  if !v.is_correct then
    ({ status := "validation_failed", energy_metrics := none }, prologue)
  else
    let final := aggregateLoop p run_trial p.max_trials 0 initialLoopState
    let trial_effects := (List.range final.trials_run).map .run_trial
    match aggregate_measurements p run_trial with
    | .error _ =>
      ({ status := "failed", energy_metrics := none },
        prologue ++ [.update_state "acquiring_socket0_lock", .lock_acquire,
          .update_state "energy_measurement", .executor_setup] ++ trial_effects ++
          [.lock_release, .lock_release])
    | .ok agg =>
      ({ status := "completed", energy_metrics := some agg.median_energy_joules },
        prologue ++ [.update_state "acquiring_socket0_lock", .lock_acquire,
          .update_state "energy_measurement", .executor_setup] ++ trial_effects ++
          [.executor_cleanup, .lock_release, .update_state "finalizing"])

/-! ## Resource limits (`core/executor.py`,
`SafeCodeExecutor._resource_limits`) -/

/-- Resources `setrlimit` can target; only the two the claim mentions are
distinguished. -/
inductive RLimitResource
  | AS
  | CPU
deriving DecidableEq

/-- A soft/hard rlimit pair.  `RLIM_INFINITY` is a negative sentinel
(Python exposes it as -1); the source treats every negative hard value as
unlimited. -/
structure RLimit where
  soft : ℤ
  hard : ℤ
deriving DecidableEq

def RLIM_INFINITY : ℤ := -1

/-- The `RLIMIT_AS` pair `_resource_limits` computes before running user
code (source lines 172-185): soft limit `memory_limit_mb * 1024 * 1024`
clamped to the pre-existing hard limit unless that is unlimited; the hard
limit is carried over unchanged. -/
def resourceLimitsAS (memory_limit_mb : ℕ) (old : RLimit) : RLimit :=
  let memory_bytes : ℤ := (memory_limit_mb : ℤ) * 1024 * 1024
  if old.hard = RLIM_INFINITY ∨ old.hard < 0 then
    { soft := memory_bytes, hard := old.hard }
  else
    { soft := min memory_bytes old.hard, hard := old.hard }

/-- The full list of `setrlimit` calls `_resource_limits` issues on entry
(source lines 165-201): exactly one, for `RLIMIT_AS`.  No `RLIMIT_CPU`
is ever set (lines 191-194); wall-clock timeout uses `SIGALRM`. -/
def appliedRLimits (memory_limit_mb : ℕ) (old : RLimit) :
    List (RLimitResource × RLimit) :=
  [(.AS, resourceLimitsAS memory_limit_mb old)]

/-! ## Concrete instances used by witnesses and counterexamples -/

/-- A freshly captured profile whose stored idle power is negative. -/
def negativeIdleProfile : CalibrationProfileState :=
  { idle_power_watts := some (-1), timestamp := .parsed 0, cv_percent := 0,
    valid_until_days := 7 }

/-- A loaded profile captured 8 days before the reference instant
`eightDaysLater`. -/
def expiredProfile : CalibrationProfileState :=
  { idle_power_watts := some 50, timestamp := .parsed 0, cv_percent := 2,
    valid_until_days := 7 }

def eightDaysLater : ℤ := 8 * microsecondsPerDay

/-- A loaded, usable profile: 10 W idle power. -/
def loadedCalibration : CalibrationProfileState :=
  { idle_power_watts := some 10, timestamp := .parsed 0, cv_percent := 2,
    valid_until_days := 7 }

def executorW : SocketExecutorState :=
  { socket_id := 0, cpu_core := 4, timeout_seconds := 30,
    calibration := loadedCalibration }

/-- A trial during which the package counter wrapped once: the after
reading is below the before reading by 3900 J. -/
def wrapTrialEnv : TrialEnv :=
  { idle_ok := true, idle_message := "",
    reading_before := ⟨0, 4000, 5⟩, reading_after := ⟨0, 100, 6⟩,
    t0 := 0, t1 := 2, subprocess_timed_out := false,
    subprocess_returncode := 0, subprocess_stderr := "" }

/-- A trial whose package delta, -8590 J, is more negative than one full
counter range (≈ -4294.97 J), i.e. the counter wrapped at least twice. -/
def doubleWrapEnv : TrialEnv :=
  { idle_ok := true, idle_message := "",
    reading_before := ⟨0, 10000, 0⟩, reading_after := ⟨0, 1410, 0⟩,
    t0 := 0, t1 := 1, subprocess_timed_out := false,
    subprocess_returncode := 0, subprocess_stderr := "" }

/-- A successful trial result with the given net energy (the other fields
are immaterial for the aggregation loop). -/
def mkSuccessResult (e : ℚ) : ExecutionResult :=
  { net_energy_joules := e, raw_energy_joules := e, baseline_energy_joules := 0,
    execution_time_seconds := 1, trial_number := 0, cpu_core := 4,
    success := true, error_message := none,
    package_net_energy_joules := e, dram_energy_joules := 0 }

/-- Aggregator configured with min 3 / max 4 trials (target CV 5 %,
early stop on). -/
def c5Params : AggregatorParams :=
  { min_trials := 3, max_trials := 4, target_cv_percent := 5,
    early_stop_enabled := true, cooldown_seconds := 1 / 2,
    min_trial_wall_time_seconds := 1 / 10 }

/-- Trial oracle: trial 0 fails, trials 1-3 succeed with net energies
7 J, 10 J, 13 J (sample stdev 3, mean 10, CV 30 %). -/
def c5Trials : ℕ → ExecutionResult
  | 0 => failedResult 0 4 "Socket not idle: busy"
  | 1 => mkSuccessResult 7
  | 2 => mkSuccessResult 10
  | _ => mkSuccessResult 13

/-- Sysfs directory map of a two-socket host: only socket 1's RAPL
directory matters here. -/
def socket1Dirs : String → Bool := fun path => path == raplSocketPath 1

/-- Sysfs file map for socket 1 on which the DRAM counter lives exactly
where the specification says, at `intel-rapl:1/intel-rapl:1:0/energy_uj`
(2 J on the package counter, 1 J on the DRAM counter). -/
def socket1Fs : String → Option ℕ := fun path =>
  if path == packageEnergyPath 1 then some 2000000
  else if path == specDramEnergyPath 1 then some 1000000
  else none

/-- Sysfs directory map of a host exposing only socket 0. -/
def socket0Dirs : String → Bool := fun path => path == raplSocketPath 0

/-- Sysfs file map for socket 0 with a package counter of 7 J and no DRAM
counter at all. -/
def socket0FsNoDram : String → Option ℕ := fun path =>
  if path == packageEnergyPath 0 then some 7000000 else none

/-! ## Theorems -/

/-- C7: `Socket0Lock.acquire` conditionally sets the lock key only if it
is absent, attaching a TTL equal to the configured lock lifetime (default
300 s); while the key is held by holder A, every non-blocking acquire by
holder B returns false and leaves the key untouched; after A's release
deletes the key, B's next non-blocking acquire returns true. -/
theorem C7_lock_mutual_exclusion (cfg : Socket0LockConfig) (held : String × ℕ) :
    (Socket0Lock.acquire_nonblocking cfg (some held) = (some held, false)) ∧
    (Socket0Lock.release cfg (some held) = none) ∧
    (Socket0Lock.acquire_nonblocking cfg (Socket0Lock.release cfg (some held)) =
      (some ("locked", cfg.lock_timeout), true)) ∧
    (({} : Socket0LockConfig).lock_timeout = 300) :=
  ⟨rfl, rfl, rfl, rfl⟩

/-- C10: before running user code, the executor sets the address-space
soft limit to `min(memory_limit_mb * 2^20, hard)` when the pre-existing
hard limit is finite, and to `memory_limit_mb * 2^20` when it is
unlimited; the hard limit is carried over unchanged (never raised); the
only rlimit ever set is `RLIMIT_AS` — no CPU-time rlimit. -/
theorem C10_resource_limits (memory_limit_mb : ℕ) (old : RLimit) :
    ((appliedRLimits memory_limit_mb old).map Prod.fst = [.AS]) ∧
    ((resourceLimitsAS memory_limit_mb old).hard = old.hard) ∧
    (0 ≤ old.hard →
      (resourceLimitsAS memory_limit_mb old).soft =
        min ((memory_limit_mb : ℤ) * 2 ^ 20) old.hard) ∧
    (old.hard < 0 →
      (resourceLimitsAS memory_limit_mb old).soft = (memory_limit_mb : ℤ) * 2 ^ 20) := by
  refine ⟨rfl, ?_, ?_, ?_⟩
  · unfold resourceLimitsAS
    split <;> rfl
  · intro h
    have hc : ¬(old.hard = RLIM_INFINITY ∨ old.hard < 0) := by
      simp only [RLIM_INFINITY]
      omega
    unfold resourceLimitsAS
    rw [if_neg hc]
    show (memory_limit_mb : ℤ) * 1024 * 1024 ⊓ old.hard = _
    rw [mul_assoc]
    norm_num
  · intro h
    unfold resourceLimitsAS
    rw [if_pos (Or.inr h)]
    show (memory_limit_mb : ℤ) * 1024 * 1024 = _
    rw [mul_assoc]
    norm_num

/-- C10 witness: with a 256 MiB request, a finite 1 GiB hard limit clamps
the soft limit while an unlimited hard limit leaves the full request. -/
theorem C10_resource_limits_witness :
    ((0 : ℤ) ≤ 2 ^ 30 ∧
      (resourceLimitsAS 256 ⟨0, 2 ^ 30⟩).soft = min ((256 : ℤ) * 2 ^ 20) (2 ^ 30)) ∧
    ((-1 : ℤ) < 0 ∧ (resourceLimitsAS 256 ⟨0, -1⟩).soft = (256 : ℤ) * 2 ^ 20) :=
  ⟨⟨by norm_num, (C10_resource_limits 256 ⟨0, 2 ^ 30⟩).2.2.1 (by norm_num)⟩,
   ⟨by norm_num, (C10_resource_limits 256 ⟨0, -1⟩).2.2.2 (by norm_num)⟩⟩

/-- C3 counterexample: a freshly captured profile whose stored idle power
is -1 W (so `idle_power ≤ 0`) passes `is_valid` — the source tests
`idle_power_watts` with Python truthiness, which only rejects `None` and
`0.0`, so the claim's "a profile with idle_power ≤ 0 is never usable" is
false on the code. -/
theorem C3_counterexample :
    negativeIdleProfile.idle_power_watts = some (-1) ∧
    ((-1 : ℚ) ≤ 0) ∧
    (negativeIdleProfile.is_valid 0 = (true, "Valid")) := by
  refine ⟨rfl, by norm_num, ?_⟩
  decide

/-- C3 (amended): a loaded profile is usable iff its idle power is
present and nonzero (Python truthiness — a negative idle power passes),
its timestamp parses, and its age is at most `valid_until_days` days; a
profile older than that is rejected with the "Calibration expired"
reason. -/
theorem C3_is_valid_characterization (p : CalibrationProfileState) (now : ℤ) :
    ((p.is_valid now).1 = true ↔
      (floatTruthy p.idle_power_watts = true ∧
        ∃ t, p.timestamp = .parsed t ∧
          now - t ≤ p.valid_until_days * microsecondsPerDay)) ∧
    (∀ t, floatTruthy p.idle_power_watts = true → p.timestamp = .parsed t →
      now - t > p.valid_until_days * microsecondsPerDay →
      p.is_valid now =
        (false, "Calibration expired (" ++
          toString ((now - t).fdiv microsecondsPerDay) ++ " days old, max " ++
          toString p.valid_until_days ++ ")")) := by
  constructor
  · unfold CalibrationProfileState.is_valid
    cases hf : floatTruthy p.idle_power_watts
    · simp
    · cases ht : p.timestamp with
      | missing => simp
      | malformed => simp
      | parsed t =>
        by_cases hage : now - t > p.valid_until_days * microsecondsPerDay
        · rw [if_neg (by simp)]
          dsimp only
          rw [if_pos hage]
          simp only [TimestampField.parsed.injEq, true_and]
          constructor
          · intro h
            exact absurd h (by simp)
          · rintro ⟨t', rfl, hle⟩
            omega
        · rw [if_neg (by simp)]
          dsimp only
          rw [if_neg hage]
          simp only [TimestampField.parsed.injEq, true_and]
          constructor
          · intro _
            exact ⟨t, rfl, by omega⟩
          · intro _
            trivial
  · intro t hf ht hage
    unfold CalibrationProfileState.is_valid
    rw [hf, ht]
    rw [if_neg (by simp)]
    dsimp only
    rw [if_pos hage]

/-- C3 witness: a profile captured 8 days ago with a 7-day validity
window fails `is_valid` with the expired reason. -/
theorem C3_expiry_witness :
    expiredProfile.is_valid eightDaysLater =
      (false, "Calibration expired (8 days old, max 7)") := by
  have h := (C3_is_valid_characterization expiredProfile eightDaysLater).2 0
    (by decide) rfl (by decide)
  rw [h]
  rfl

/-- On the success path — no timeout, exit code 0, calibration loaded
with nonzero idle power — `trialBody` returns exactly the record computed
by source lines 352-383. -/
theorem trialBody_success_eq (ex : SocketExecutorState) (env : TrialEnv)
    (n : ℕ) (idle : ℚ)
    (hto : env.subprocess_timed_out = false)
    (hrc : env.subprocess_returncode = 0)
    (hcal : ex.calibration.idle_power_watts = some idle)
    (hidle : idle ≠ 0) :
    trialBody ex env n =
      { net_energy_joules :=
          max 0 (pkgRawOf env - idle * (env.t1 - env.t0)) + max 0 (dramRawOf env),
        raw_energy_joules := pkgRawOf env,
        baseline_energy_joules := idle * (env.t1 - env.t0),
        execution_time_seconds := env.t1 - env.t0,
        trial_number := n,
        cpu_core := ex.cpu_core,
        success := true,
        error_message := none,
        package_net_energy_joules := max 0 (pkgRawOf env - idle * (env.t1 - env.t0)),
        dram_energy_joules := dramRawOf env } := by
  have hbase : ex.calibration.get_baseline_energy (env.t1 - env.t0) =
      .ok (idle * (env.t1 - env.t0)) := by
    unfold CalibrationProfileState.get_baseline_energy
    rw [hcal]
    simp [floatTruthy, hidle]
  unfold trialBody
  rw [hto, hrc]
  simp only [Bool.false_eq_true, if_false, bne_self_eq_false]
  rw [hbase]
  simp only [pkgRawOf, dramRawOf, pkgDeltaOf, dramDeltaOf]

/-- C2: for a trial whose subprocess succeeded, the raw package delta is
`E1.pkg - E0.pkg` with `2^32/10^6` J added exactly once iff the
difference is negative (likewise for DRAM); the recorded execution time
is the outer monotonic wall duration `t1 - t0`; the baseline is
`idle_power * Δt`; the net package energy is
`max(0, ΔE_pkg - baseline)`; the net total is
`net_pkg + max(0, ΔE_dram)`; and under a single wrap of the 32-bit
microjoule counter the corrected delta `(after + 2^32/10^6) - before`
equals the energy actually drawn and is non-negative. -/
theorem C2_trial_energy_accounting (ex : SocketExecutorState) (env : TrialEnv)
    (n : ℕ) (idle : ℚ)
    (hto : env.subprocess_timed_out = false)
    (hrc : env.subprocess_returncode = 0)
    (hcal : ex.calibration.idle_power_watts = some idle)
    (hidle : idle ≠ 0) :
    ((trialBody ex env n).success = true) ∧
    ((trialBody ex env n).raw_energy_joules =
      pkgDeltaOf env + (if pkgDeltaOf env < 0 then rolloverJoules else 0)) ∧
    ((trialBody ex env n).dram_energy_joules =
      dramDeltaOf env + (if dramDeltaOf env < 0 then rolloverJoules else 0)) ∧
    ((trialBody ex env n).execution_time_seconds = env.t1 - env.t0) ∧
    ((trialBody ex env n).baseline_energy_joules = idle * (env.t1 - env.t0)) ∧
    ((trialBody ex env n).package_net_energy_joules =
      max 0 ((trialBody ex env n).raw_energy_joules -
        (trialBody ex env n).baseline_energy_joules)) ∧
    ((trialBody ex env n).net_energy_joules =
      (trialBody ex env n).package_net_energy_joules +
        max 0 ((trialBody ex env n).dram_energy_joules)) ∧
    (∀ before_uj used_uj : ℕ, before_uj < 2 ^ 32 → used_uj < 2 ^ 32 →
      2 ^ 32 ≤ before_uj + used_uj →
      ((((before_uj + used_uj) % 2 ^ 32 : ℕ) : ℚ) / 1000000 -
          (before_uj : ℚ) / 1000000 < 0) ∧
      ((((before_uj + used_uj) % 2 ^ 32 : ℕ) : ℚ) / 1000000 + rolloverJoules -
          (before_uj : ℚ) / 1000000 = (used_uj : ℚ) / 1000000) ∧
      (0 ≤ (((before_uj + used_uj) % 2 ^ 32 : ℕ) : ℚ) / 1000000 + rolloverJoules -
          (before_uj : ℚ) / 1000000)) := by
  rw [trialBody_success_eq ex env n idle hto hrc hcal hidle]
  refine ⟨rfl, ?_, ?_, rfl, rfl, rfl, rfl, ?_⟩
  · show pkgRawOf env = _
    unfold pkgRawOf
    split <;> ring
  · show dramRawOf env = _
    unfold dramRawOf
    split <;> ring
  · intro b u hb hu hsum
    have hmod : (b + u) % 2 ^ 32 = b + u - 2 ^ 32 := by omega
    have hcast : (((b + u - 2 ^ 32 : ℕ)) : ℚ) = (b : ℚ) + (u : ℚ) - 2 ^ 32 := by
      rw [Nat.cast_sub hsum]
      push_cast
      ring
    have hu32 : (u : ℚ) < 2 ^ 32 := by exact_mod_cast hu
    have hu0 : (0 : ℚ) ≤ (u : ℚ) := Nat.cast_nonneg u
    rw [hmod, hcast]
    unfold rolloverJoules
    refine ⟨by linarith, by ring, ?_⟩
    have : ((b : ℚ) + u - 2 ^ 32) / 1000000 + 2 ^ 32 / 1000000 - (b : ℚ) / 1000000 =
        (u : ℚ) / 1000000 := by ring
    rw [this]
    exact div_nonneg hu0 (by norm_num)

/-- C2 witness: a trial on a 10 W calibration over 2 s whose package
counter wrapped once (delta -3900 J) yields raw energy
`-3900 + 2^32/10^6` J and baseline 20 J; and the wrap rule at counter
values before = 4294967295 µJ, consumed = 1000000 µJ gives a
non-negative corrected delta. -/
theorem C2_trial_energy_accounting_witness :
    (trialBody executorW wrapTrialEnv 0).success = true ∧
    (trialBody executorW wrapTrialEnv 0).raw_energy_joules = -3900 + rolloverJoules ∧
    (trialBody executorW wrapTrialEnv 0).baseline_energy_joules = 20 ∧
    (0 ≤ (((4294967295 + 1000000) % 2 ^ 32 : ℕ) : ℚ) / 1000000 + rolloverJoules -
        ((4294967295 : ℕ) : ℚ) / 1000000) := by
  have h := C2_trial_energy_accounting executorW wrapTrialEnv 0 10 rfl rfl rfl
    (by norm_num)
  refine ⟨h.1, ?_, ?_,
    (h.2.2.2.2.2.2.2 4294967295 1000000 (by norm_num) (by norm_num) (by norm_num)).2.2⟩
  · rw [h.2.1]
    norm_num [pkgDeltaOf, wrapTrialEnv]
  · rw [h.2.2.2.2.1]
    norm_num [wrapTrialEnv]

/-- C4 counterexample: a trial whose package delta is -8590 J — more
negative than one full counter range, so one rollover correction leaves
it negative — is returned as a successful result with the once-corrected
raw value, not as a measurement error: the claim's "reported as a
measurement error rather than silently corrected" is false on the code. -/
theorem C4_counterexample :
    (trialBody executorW doubleWrapEnv 0).success = true ∧
    (trialBody executorW doubleWrapEnv 0).error_message = none ∧
    (trialBody executorW doubleWrapEnv 0).raw_energy_joules = -8590 + rolloverJoules ∧
    ((-8590 : ℚ) + rolloverJoules < 0) := by
  have hd : pkgDeltaOf doubleWrapEnv = -8590 := by
    norm_num [pkgDeltaOf, doubleWrapEnv]
  rw [trialBody_success_eq executorW doubleWrapEnv 0 10 rfl rfl rfl (by norm_num)]
  refine ⟨rfl, rfl, ?_, by norm_num [rolloverJoules]⟩
  show pkgRawOf doubleWrapEnv = _
  unfold pkgRawOf
  rw [hd, if_pos (by norm_num)]

/-- C4 (amended): when the computed delta is negative the consumer adds
`2^32/10^6` J exactly once (and leaves a non-negative delta untouched);
but a negative delta larger than one wrap is NOT reported as a
measurement error — the trial is still returned as successful, with the
once-corrected, still negative, raw value. -/
theorem C4_rollover_correction (ex : SocketExecutorState) (env : TrialEnv)
    (n : ℕ) (idle : ℚ)
    (hto : env.subprocess_timed_out = false)
    (hrc : env.subprocess_returncode = 0)
    (hcal : ex.calibration.idle_power_watts = some idle)
    (hidle : idle ≠ 0) :
    (pkgDeltaOf env < 0 →
      (trialBody ex env n).raw_energy_joules = pkgDeltaOf env + rolloverJoules) ∧
    (0 ≤ pkgDeltaOf env →
      (trialBody ex env n).raw_energy_joules = pkgDeltaOf env) ∧
    (pkgDeltaOf env + rolloverJoules < 0 →
      (trialBody ex env n).success = true ∧
      (trialBody ex env n).error_message = none ∧
      (trialBody ex env n).raw_energy_joules < 0) := by
  rw [trialBody_success_eq ex env n idle hto hrc hcal hidle]
  refine ⟨?_, ?_, ?_⟩
  · intro hneg
    show pkgRawOf env = _
    unfold pkgRawOf
    rw [if_pos hneg]
  · intro hpos
    show pkgRawOf env = _
    unfold pkgRawOf
    rw [if_neg (by linarith)]
  · intro hdouble
    have hneg : pkgDeltaOf env < 0 := by
      have h0 : (0 : ℚ) < rolloverJoules := by norm_num [rolloverJoules]
      linarith
    refine ⟨rfl, rfl, ?_⟩
    show pkgRawOf env < 0
    unfold pkgRawOf
    rw [if_pos hneg]
    exact hdouble

/-- C4 witness: the amended statement at the double-wrap trial. -/
theorem C4_rollover_correction_witness :
    (trialBody executorW doubleWrapEnv 0).raw_energy_joules =
      pkgDeltaOf doubleWrapEnv + rolloverJoules ∧
    (trialBody executorW doubleWrapEnv 0).success = true ∧
    (trialBody executorW doubleWrapEnv 0).raw_energy_joules < 0 := by
  have h := C4_rollover_correction executorW doubleWrapEnv 0 10 rfl rfl rfl
    (by norm_num)
  have hneg : pkgDeltaOf doubleWrapEnv < 0 := by
    norm_num [pkgDeltaOf, doubleWrapEnv]
  have hdouble : pkgDeltaOf doubleWrapEnv + rolloverJoules < 0 := by
    norm_num [pkgDeltaOf, doubleWrapEnv, rolloverJoules]
  exact ⟨h.1 hneg, (h.2.2 hdouble).1, (h.2.2 hdouble).2.2⟩

/-- C9 counterexample: for socket 1 the code reads DRAM from the child
domain directory `intel-rapl:0:0`, not `intel-rapl:1:0` as the claim
states; on a host whose socket-1 DRAM counter lives exactly at the
claimed path (holding 1 J), the reading comes back with 0 J of DRAM. -/
theorem C9_counterexample :
    dramEnergyPath 1 ≠ specDramEnergyPath 1 ∧
    socket1Fs (specDramEnergyPath 1) = some 1000000 ∧
    readSocketEnergy socket1Dirs socket1Fs 1 =
      .ok { socket_id := 1, package_energy_joules := 2, dram_energy_joules := 0 } := by
  refine ⟨by decide, by decide, ?_⟩
  unfold readSocketEnergy
  rw [show socket1Dirs (raplSocketPath 1) = true from by decide]
  rw [show socket1Fs (packageEnergyPath 1) = some 2000000 from by decide]
  rw [show socket1Fs (dramEnergyPath 1) = none from by decide]
  norm_num

/-- C9 (amended): for every socket `s` the reader takes the DRAM counter
from the fixed child path `intel-rapl:<s>/intel-rapl:0:0/energy_uj` —
which coincides with the spec's socket-indexed path exactly for socket
0 — and when that file is absent the reading reports 0 J of DRAM without
raising an error. -/
theorem C9_dram_path (dirExists : String → Bool) (fs : String → Option ℕ)
    (s uj : ℕ)
    (hdir : dirExists (raplSocketPath s) = true)
    (hpkg : fs (packageEnergyPath s) = some uj)
    (hdram : fs (dramEnergyPath s) = none) :
    readSocketEnergy dirExists fs s =
      .ok { socket_id := s, package_energy_joules := (uj : ℚ) / 1000000,
            dram_energy_joules := 0 } ∧
    dramEnergyPath 0 = specDramEnergyPath 0 := by
  constructor
  · unfold readSocketEnergy
    rw [hdir, hpkg, hdram]
    simp
  · decide

/-- C9 witness: socket 0 with a 7 J package counter and no DRAM counter
reads back without error and with 0 J of DRAM. -/
theorem C9_dram_path_witness :
    readSocketEnergy socket0Dirs socket0FsNoDram 0 =
      .ok { socket_id := 0, package_energy_joules := ((7000000 : ℕ) : ℚ) / 1000000,
            dram_energy_joules := 0 } ∧
    dramEnergyPath 0 = specDramEnergyPath 0 :=
  C9_dram_path socket0Dirs socket0FsNoDram 0 7000000 (by decide) (by decide) (by decide)

/-- Helper: `PCMSocketMeter` defines no attribute named
`get_socket_reading`, so the lookup raises `AttributeError`. -/
theorem getSocketReading_absent :
    pyGetattr pcmSocketMeterAttributes "get_socket_reading" = none := by
  decide

/-- Helper: when every trial fails, the aggregation loop accumulates no
successful result. -/
theorem aggregateLoop_all_fail (p : AggregatorParams)
    (run_trial : ℕ → ExecutionResult)
    (h : ∀ i, (run_trial i).success = false) :
    ∀ (fuel trial : ℕ) (st : LoopState),
      (aggregateLoop p run_trial fuel trial st).successes = st.successes := by
  intro fuel
  induction fuel with
  | zero =>
    intro trial st
    rfl
  | succ k ih =>
    intro trial st
    unfold aggregateLoop
    simp only [h trial, Bool.false_eq_true, if_false]
    exact ih (trial + 1) _

/-- C1: on an initialized executor, `execute_single_trial` always returns
a failed result (success = false, zero energy fields) — it resolves
`self.meter.get_socket_reading`, which `PCMSocketMeter` does not define,
so every trial that passes the idle gate takes the catch-all exception
path (and a trial failing the idle gate fails too) — and consequently
`aggregate_measurements` raises "All trials failed" on every request. -/
theorem C1_every_trial_fails (ex : SocketExecutorState) (env : TrialEnv) (n : ℕ)
    (vi : Bool) (p : AggregatorParams) (envs : ℕ → TrialEnv) (vis : ℕ → Bool) :
    ((execute_single_trial ex env n vi).success = false ∧
     (execute_single_trial ex env n vi).net_energy_joules = 0 ∧
     (execute_single_trial ex env n vi).raw_energy_joules = 0 ∧
     (execute_single_trial ex env n vi).baseline_energy_joules = 0 ∧
     (execute_single_trial ex env n vi).dram_energy_joules = 0) ∧
    aggregate_measurements p (fun i => execute_single_trial ex (envs i) i (vis i)) =
      .error "All trials failed" := by
  have hfail : ∀ (env : TrialEnv) (n : ℕ) (vi : Bool),
      (execute_single_trial ex env n vi).success = false ∧
      (execute_single_trial ex env n vi).net_energy_joules = 0 ∧
      (execute_single_trial ex env n vi).raw_energy_joules = 0 ∧
      (execute_single_trial ex env n vi).baseline_energy_joules = 0 ∧
      (execute_single_trial ex env n vi).dram_energy_joules = 0 := by
    intro env n vi
    unfold execute_single_trial
    rw [getSocketReading_absent]
    split
    · exact ⟨rfl, rfl, rfl, rfl, rfl⟩
    · exact ⟨rfl, rfl, rfl, rfl, rfl⟩
  refine ⟨hfail env n vi, ?_⟩
  have hloop := aggregateLoop_all_fail p
    (fun i => execute_single_trial ex (envs i) i (vis i))
    (fun i => (hfail (envs i) i (vis i)).1) p.max_trials 0 initialLoopState
  unfold aggregate_measurements
  simp only [hloop]
  rfl

/-- C8: when the external validator reports `is_correct = false`, the
task finalizes with the validation-failed response and performs no
measurement afterwards: no lock acquisition, no executor setup, and no
trial (hence no RAPL counter read) appears in the request's effect
trace. -/
theorem C8_correctness_gate (v : ValidationOutcome) (p : AggregatorParams)
    (run_trial : ℕ → ExecutionResult) (h : v.is_correct = false) :
    (socket_measurement_task v p run_trial).1.status = "validation_failed" ∧
    (socket_measurement_task v p run_trial).1.energy_metrics = none ∧
    TaskEffect.lock_acquire ∉ (socket_measurement_task v p run_trial).2 ∧
    TaskEffect.executor_setup ∉ (socket_measurement_task v p run_trial).2 ∧
    (∀ n, TaskEffect.run_trial n ∉ (socket_measurement_task v p run_trial).2) := by
  unfold socket_measurement_task
  rw [h]
  refine ⟨rfl, rfl, by simp, by simp, by simp⟩

/-- C8 witness: a request whose validator answer is `is_correct = false`
(0 of 2 tests passed). -/
theorem C8_correctness_gate_witness :
    (socket_measurement_task ⟨false, 0, 2⟩ {} (fun k => failedResult k 4 "x")).1.status =
      "validation_failed" ∧
    (socket_measurement_task ⟨false, 0, 2⟩ {}
      (fun k => failedResult k 4 "x")).1.energy_metrics = none ∧
    TaskEffect.lock_acquire ∉
      (socket_measurement_task ⟨false, 0, 2⟩ {} (fun k => failedResult k 4 "x")).2 ∧
    TaskEffect.executor_setup ∉
      (socket_measurement_task ⟨false, 0, 2⟩ {} (fun k => failedResult k 4 "x")).2 ∧
    (∀ n, TaskEffect.run_trial n ∉
      (socket_measurement_task ⟨false, 0, 2⟩ {} (fun k => failedResult k 4 "x")).2) :=
  C8_correctness_gate ⟨false, 0, 2⟩ {} (fun k => failedResult k 4 "x") rfl

/-- C6: the confidence label of an aggregated result is "high" iff
CV% < 5 and the successful-trial count reaches min_trials, "medium" iff
CV% < 10 and the count reaches min_trials but the result is not "high",
and "low" otherwise; and one successful trial yields CV% = 0 and
stddev = 0 without arithmetic fault, with confidence "low" (under any
configuration demanding at least two trials, as the default min of 3
does). -/
theorem C6_confidence_levels (p : AggregatorParams) (cv : ℝ) (n : ℕ)
    (hmin : 2 ≤ p.min_trials) :
    (assess_confidence p cv n = "high" ↔ (cv < 5 ∧ p.min_trials ≤ n)) ∧
    (assess_confidence p cv n = "medium" ↔ (cv < 10 ∧ p.min_trials ≤ n ∧ ¬cv < 5)) ∧
    (assess_confidence p cv n = "low" ↔ ¬(cv < 10 ∧ p.min_trials ≤ n)) ∧
    (∀ e : ℚ, calculate_cv [e] = 0 ∧ aggregateStddev [e] = 0 ∧
      assess_confidence p (calculate_cv [e]) 1 = "low") := by
  have hcv1 : ∀ e : ℚ, calculate_cv [e] = 0 := by
    intro e
    unfold calculate_cv
    rw [if_pos (by norm_num)]
  have hsd1 : ∀ e : ℚ, aggregateStddev [e] = 0 := by
    intro e
    unfold aggregateStddev
    rw [if_neg (by norm_num)]
  have hlow1 : assess_confidence p 0 1 = "low" := by
    unfold assess_confidence
    rw [if_neg (by rintro ⟨-, hn⟩; omega), if_neg (by rintro ⟨-, hn⟩; omega)]
  refine ⟨?_, ?_, ?_, fun e => ⟨hcv1 e, hsd1 e, by rw [hcv1 e]; exact hlow1⟩⟩
  · unfold assess_confidence
    by_cases hA : cv < 5 ∧ p.min_trials ≤ n
    · rw [if_pos hA]
      exact iff_of_true rfl hA
    · by_cases hB : cv < 10 ∧ p.min_trials ≤ n
      · rw [if_neg hA, if_pos hB]
        exact iff_of_false (by decide) hA
      · rw [if_neg hA, if_neg hB]
        exact iff_of_false (by decide) hA
  · unfold assess_confidence
    by_cases hA : cv < 5 ∧ p.min_trials ≤ n
    · rw [if_pos hA]
      exact iff_of_false (by decide) (fun h => h.2.2 hA.1)
    · by_cases hB : cv < 10 ∧ p.min_trials ≤ n
      · rw [if_neg hA, if_pos hB]
        exact iff_of_true rfl ⟨hB.1, hB.2, fun h5 => hA ⟨h5, hB.2⟩⟩
      · rw [if_neg hA, if_neg hB]
        exact iff_of_false (by decide) (fun h => hB ⟨h.1, h.2.1⟩)
  · unfold assess_confidence
    by_cases hA : cv < 5 ∧ p.min_trials ≤ n
    · rw [if_pos hA]
      exact iff_of_false (by decide) (fun hnB => hnB ⟨lt_trans hA.1 (by norm_num), hA.2⟩)
    · by_cases hB : cv < 10 ∧ p.min_trials ≤ n
      · rw [if_neg hA, if_pos hB]
        exact iff_of_false (by decide) (fun hnB => hnB hB)
      · rw [if_neg hA, if_neg hB]
        exact iff_of_true rfl hB

/-- C6 witness: with the default configuration (min_trials = 3), a single
successful trial reports CV% = 0, stddev = 0, confidence "low". -/
theorem C6_confidence_levels_witness :
    calculate_cv [(7 : ℚ)] = 0 ∧ aggregateStddev [(7 : ℚ)] = 0 ∧
    assess_confidence {} (calculate_cv [(7 : ℚ)]) 1 = "low" := by
  have h := C6_confidence_levels {} (calculate_cv [(7 : ℚ)]) 1 (by decide)
  exact h.2.2.2 7

/-- Helper: the mean of the net energies 7, 10, 13. -/
theorem mean_c5_energies : mean [7, 10, 13] = 10 := by
  unfold mean
  norm_num [List.sum_cons, List.sum_nil]

/-- Helper: the sample variance of 7, 10, 13 is (9 + 0 + 9) / 2 = 9. -/
theorem sampleVariance_c5_energies : sampleVariance [7, 10, 13] = 9 := by
  unfold sampleVariance
  rw [mean_c5_energies]
  norm_num [List.sum_cons, List.sum_nil, List.map_cons, List.map_nil]

/-- Helper: the CV of 7, 10, 13 is sqrt 9 / 10 * 100 = 30 %. -/
theorem calculate_cv_c5_energies : calculate_cv [7, 10, 13] = 30 := by
  unfold calculate_cv
  rw [if_neg (by norm_num), mean_c5_energies, if_neg (by norm_num)]
  unfold sampleStdev
  rw [sampleVariance_c5_energies]
  rw [show ((9 : ℚ) : ℝ) = (3 : ℝ) ^ 2 by norm_num, Real.sqrt_sq (by norm_num)]
  norm_num

/-- Helper: with min 3 / max 4 and three successes at 30 % CV,
`_should_stop_early` answers "keep going" — it compares the success
count, not the loop index, against max_trials. -/
theorem should_stop_early_c5 : should_stop_early c5Params [7, 10, 13] 3 = none := by
  unfold should_stop_early
  have h3 : ¬(calculate_cv [7, 10, 13] < ((c5Params.target_cv_percent : ℚ) : ℝ)) := by
    rw [calculate_cv_c5_energies]
    norm_num [c5Params]
  rw [if_neg (by norm_num [c5Params]), if_neg (by norm_num [c5Params]), if_neg h3,
    if_pos (by norm_num [c5Params])]

/-- C5 counterexample: with min 3 / max 4 trials, target CV 5 % and early
stop enabled, on trials (fail, 7 J, 10 J, 13 J) the loop runs all 4 =
max_trials trials (the successes' CV stays at 30 %), yet it does NOT
stop with reason "max trials reached": no stop reason is recorded at
all, because `_should_stop_early` receives the successful-trial count
(3), not the loop index, and 3 < max_trials. -/
theorem C5_counterexample :
    c5Params.max_trials = 4 ∧
    (aggregateLoop c5Params c5Trials c5Params.max_trials 0 initialLoopState).trials_run = 4 ∧
    (aggregateLoop c5Params c5Trials c5Params.max_trials 0 initialLoopState).early_stopped
      = false ∧
    (aggregateLoop c5Params c5Trials c5Params.max_trials 0 initialLoopState).stop_reason
      = none := by
  have hshow : aggregateLoop c5Params c5Trials c5Params.max_trials 0 initialLoopState =
      (match should_stop_early c5Params [7, 10, 13] 3 with
       | some r =>
         { successes := [mkSuccessResult 7, mkSuccessResult 10, mkSuccessResult 13],
           failed_count := 1, trials_run := 4, early_stopped := true,
           stop_reason := some r }
       | none =>
         { successes := [mkSuccessResult 7, mkSuccessResult 10, mkSuccessResult 13],
           failed_count := 1, trials_run := 4, early_stopped := false,
           stop_reason := none }) := rfl
  refine ⟨rfl, ?_, ?_, ?_⟩ <;> rw [hshow, should_stop_early_c5]

/-- Helper: a loop that never breaks early records no stop reason. -/
theorem aggregateLoop_exhaustion (p : AggregatorParams)
    (run_trial : ℕ → ExecutionResult) :
    ∀ (fuel trial : ℕ) (st : LoopState), st.stop_reason = none →
      (aggregateLoop p run_trial fuel trial st).early_stopped = false →
      (aggregateLoop p run_trial fuel trial st).stop_reason = none := by
  intro fuel
  induction fuel with
  | zero =>
    intro trial st h1 _
    exact h1
  | succ k ih =>
    intro trial st h1 h2
    unfold aggregateLoop at h2 ⊢
    dsimp only at h2 ⊢
    by_cases hs : (run_trial trial).success = true
    · rw [if_pos hs] at h2 ⊢
      by_cases hg : p.min_trials ≤ (st.successes ++ [run_trial trial]).length
      · rw [if_pos hg] at h2 ⊢
        cases hsse : should_stop_early p
            (List.map (fun r => r.net_energy_joules) (st.successes ++ [run_trial trial]))
            (st.successes ++ [run_trial trial]).length with
        | some r =>
          rw [hsse] at h2
          dsimp only at h2
          exact absurd h2 (by simp)
        | none =>
          rw [hsse] at h2
          dsimp only at h2 ⊢
          exact ih (trial + 1) _ h1 h2
      · rw [if_neg hg] at h2 ⊢
        exact ih (trial + 1) _ h1 h2
    · rw [if_neg hs] at h2 ⊢
      exact ih (trial + 1) _ h1 h2

/-- C5 (amended): with early stopping enabled, after a successful trial
whose accumulated successes number `n` with net energies `s`, the loop's
stop decision is: no stop while `n < min_trials`; stop with reason
"achieved target" exactly when `CV%(s) < target`; stop with reason
"max trials reached" exactly when `CV%(s) ≥ target` AND the
successful-trial count `n` itself has reached max_trials (the loop index
is not consulted); and a loop that exhausts `range(max_trials)` without
breaking early records no stop reason at all. -/
theorem C5_stop_conditions (p : AggregatorParams)
    (hen : p.early_stop_enabled = true) :
    (∀ (s : List ℚ) (n : ℕ), n < p.min_trials → should_stop_early p s n = none) ∧
    (∀ (s : List ℚ) (n : ℕ), p.min_trials ≤ n →
      (should_stop_early p s n = some .achievedTarget ↔
        calculate_cv s < ((p.target_cv_percent : ℚ) : ℝ))) ∧
    (∀ (s : List ℚ) (n : ℕ), p.min_trials ≤ n →
      (should_stop_early p s n = some .maxTrialsReached ↔
        (¬calculate_cv s < ((p.target_cv_percent : ℚ) : ℝ) ∧ p.max_trials ≤ n))) ∧
    (∀ (run_trial : ℕ → ExecutionResult) (fuel trial : ℕ),
      (aggregateLoop p run_trial fuel trial initialLoopState).early_stopped = false →
      (aggregateLoop p run_trial fuel trial initialLoopState).stop_reason = none) := by
  have hne : ¬((!p.early_stop_enabled) = true) := by
    rw [hen]
    simp
  refine ⟨?_, ?_, ?_, ?_⟩
  · intro s n hn
    unfold should_stop_early
    rw [if_neg hne, if_pos hn]
  · intro s n hn
    unfold should_stop_early
    rw [if_neg hne, if_neg (by omega)]
    by_cases hcv : calculate_cv s < ((p.target_cv_percent : ℚ) : ℝ)
    · rw [if_pos hcv]
      exact iff_of_true rfl hcv
    · rw [if_neg hcv]
      by_cases hmax : n < p.max_trials
      · rw [if_pos hmax]
        exact iff_of_false (by simp) hcv
      · rw [if_neg hmax]
        exact iff_of_false (by simp) hcv
  · intro s n hn
    unfold should_stop_early
    rw [if_neg hne, if_neg (by omega)]
    by_cases hcv : calculate_cv s < ((p.target_cv_percent : ℚ) : ℝ)
    · rw [if_pos hcv]
      exact iff_of_false (by simp) (fun h => h.1 hcv)
    · rw [if_neg hcv]
      by_cases hmax : n < p.max_trials
      · rw [if_pos hmax]
        exact iff_of_false (by simp) (fun h => by omega)
      · rw [if_neg hmax]
        exact iff_of_true rfl ⟨hcv, by omega⟩
  · intro run_trial fuel trial
    exact aggregateLoop_exhaustion p run_trial fuel trial initialLoopState rfl

/-- C5 witness: with the default configuration (min 3, max 20, target
5 %, early stop on), three successes at 30 % CV trigger no stop, and two
successes are below the minimum so the decision is not even taken. -/
theorem C5_stop_conditions_witness :
    (should_stop_early {} [(7 : ℚ), 10, 13] 3 = some .achievedTarget ↔
      calculate_cv [(7 : ℚ), 10, 13] <
        ((({} : AggregatorParams).target_cv_percent : ℚ) : ℝ)) ∧
    should_stop_early {} [(7 : ℚ), 10, 13] 2 = none := by
  have h := C5_stop_conditions {} rfl
  exact ⟨h.2.1 [7, 10, 13] 3 (by decide), h.1 [7, 10, 13] 2 (by decide)⟩

end JouleTrace
